import Mathlib

/- Shallow embedding of contracts/cw20-ics20/src/ibc.rs (ICS20 IBC transfer handlers of the
cw20-ics20 contract).  Pure Rust functions become Lean functions; the mutable contract storage
(DepsMut.storage) becomes explicit state passing of a Storage record; fallible Rust functions
returning Result become Except-valued functions.  Uint128 / u64 values are modelled as Nat
(cosmwasm Uint128 arithmetic panics, i.e. aborts the transaction, on overflow; theorems over
additions carry explicit bounds below 2^128 where that matters). -/

set_option maxRecDepth 4000

namespace Cw20Ics20

/-- Version constant ICS20_VERSION from ibc.rs. -/
def ICS20_VERSION : String := "ics20-1"

/-- Channel ordering mode (cosmwasm IbcOrder). -/
inductive IbcOrder where
  | Unordered
  | Ordered
  deriving DecidableEq, Repr

/-- Ordering constant ICS20_ORDERING from ibc.rs. -/
def ICS20_ORDERING : IbcOrder := IbcOrder.Unordered

/-- Correlation id SEND_TOKEN_ID from ibc.rs. -/
def SEND_TOKEN_ID : Nat := 1337

/-- Largest value of a Rust u64. -/
def U64_MAX : Nat := 18446744073709551615

/-- The wire payload of an ics20 transfer packet (struct Ics20Packet in ibc.rs).
The Rust amount field is a Uint128, modelled as Nat. -/
structure Ics20Packet where
  amount : Nat
  denom : String
  receiver : String
  sender : String
  deriving DecidableEq, Repr

/-- Generic ICS acknowledgement (enum Ics20Ack in ibc.rs); the Result payload is opaque bytes. -/
inductive Ics20Ack where
  | Result (data : List Nat)
  | Error (msg : String)
  deriving DecidableEq, Repr

/-- The cw20 execute message built by send_amount (Cw20ExecuteMsg::Transfer). -/
inductive Cw20ExecuteMsg where
  | Transfer (recipient : String) (amount : Nat)
  deriving DecidableEq, Repr

/-- Serialized payloads (cosmwasm Binary).  The contract only ever serializes / deserializes
Ics20Packet, Ics20Ack and Cw20ExecuteMsg values, so a Binary is modelled as the value it
encodes; any other byte blob is `invalid` and fails to decode. -/
inductive Binary where
  | packet (p : Ics20Packet)
  | ack (a : Ics20Ack)
  | cw20 (m : Cw20ExecuteMsg)
  | invalid (description : String)
  deriving DecidableEq, Repr

/-- Modelled from the spec: the contract error type lives in src/error.rs, which is not among
the provided sources.  Its variants follow the spec's error taxonomy (section 7) and the
variants constructed in ibc.rs; Std covers host / serialization / address-validation errors. -/
inductive ContractError where
  | Std (msg : String)
  | AmountOverflow
  | InvalidIbcVersion (version : String)
  | OnlyOrderedChannel
  | NoForeignTokens
  | FromOtherPort (port : String)
  | FromOtherChannel (channel : String)
  | InsufficientFunds
  | NotOnAllowList
  | UnknownReplyId (id : Nat)
  deriving DecidableEq, Repr

/-- Modelled from the spec: Never is the uninhabited error type of ibc_packet_receive, from
src/error.rs (not among the provided sources); the spec calls its error type uninhabited. -/
inductive Never where

instance : DecidableEq Never := fun a => nomatch a

instance {ε α : Type} [DecidableEq ε] [DecidableEq α] : DecidableEq (Except ε α) :=
  fun x y =>
    match x, y with
    | Except.ok a, Except.ok b =>
      if h : a = b then Decidable.isTrue (by rw [h])
      else Decidable.isFalse (by intro hc; cases hc; exact h rfl)
    | Except.error a, Except.error b =>
      if h : a = b then Decidable.isTrue (by rw [h])
      else Decidable.isFalse (by intro hc; cases hc; exact h rfl)
    | Except.ok _, Except.error _ => Decidable.isFalse (by intro hc; cases hc)
    | Except.error _, Except.ok _ => Decidable.isFalse (by intro hc; cases hc)

/-- Modelled from the spec: the human-readable error descriptions (Display impls) live in
src/error.rs, not among the provided sources.  The receive path only forwards the description
verbatim into the failure acknowledgement, so the exact wording is not load-bearing. -/
def ContractError.toString : ContractError → String
  | ContractError.Std m => m
  | ContractError.AmountOverflow => "Amount larger than 2**64, not supported by ics20 packets"
  | ContractError.InvalidIbcVersion v =>
      "Only supports channel with ibc version ics20-1, got " ++ v
  | ContractError.OnlyOrderedChannel => "Only supports unordered channel"
  | ContractError.NoForeignTokens =>
      "Only accepts tokens that originate on this chain, not native tokens of remote chain"
  | ContractError.FromOtherPort p =>
      "Parsed port from denom (" ++ p ++ ") does not match packet"
  | ContractError.FromOtherChannel c =>
      "Parsed channel from denom (" ++ c ++ ") does not match packet"
  | ContractError.InsufficientFunds => "Insufficient funds to redeem voucher on channel"
  | ContractError.NotOnAllowList => "This token is not on the allow list"
  | ContractError.UnknownReplyId i => "Got a submessage reply with unknown id: " ++ Nat.repr i

/-- An IBC endpoint: port and channel ids (cosmwasm IbcEndpoint). -/
structure IbcEndpoint where
  port_id : String
  channel_id : String
  deriving DecidableEq, Repr

/-- Modelled from the spec: the per-(channel, denom) ledger record from src/state.rs (not among
the provided sources): outstanding and cumulative total_sent, 128-bit class unsigned integers
(spec section 3), modelled as Nat.  Rust Default gives the zero record. -/
structure ChannelState where
  outstanding : Nat
  total_sent : Nat
  deriving DecidableEq, Repr

instance : Inhabited ChannelState := ⟨⟨0, 0⟩⟩

/-- Modelled from the spec: channel metadata recorded on connect, from src/state.rs (not among
the provided sources): channel id, counterparty endpoint and connection id (spec section 3). -/
structure ChannelInfo where
  id : String
  counterparty_endpoint : IbcEndpoint
  connection_id : String
  deriving DecidableEq, Repr

/-- Modelled from the spec: an allow-list entry, from src/state.rs (not among the provided
sources): an optional gas ceiling for the token contract (spec section 3). -/
structure AllowInfo where
  gas_limit : Option Nat
  deriving DecidableEq, Repr

/-- Modelled from the spec: the persistent key-value store (spec sections 6 and 9) holding the
three maps CHANNEL_STATE, CHANNEL_INFO and ALLOW_LIST from src/state.rs, modelled as total
lookup functions from keys to optional records. -/
structure Storage where
  channel_state : String × String → Option ChannelState
  channel_info : String → Option ChannelInfo
  allow_list : String → Option AllowInfo

/-- A native coin: denomination and amount (cosmwasm Coin, amount a Uint128). -/
structure Coin where
  denom : String
  amount : Nat
  deriving DecidableEq, Repr

/-- A cw20 token amount: contract address and amount (cw20 Cw20Coin). -/
structure Cw20Coin where
  address : String
  amount : Nat
  deriving DecidableEq, Repr

/-- Modelled from the spec: the Amount tagged union from src/amount.rs (not among the provided
sources): either a native coin or a cw20 token amount (spec section 3). -/
inductive Amount where
  | Native (coin : Coin)
  | Cw20 (coin : Cw20Coin)
  deriving DecidableEq, Repr

/-- Modelled from the spec: Amount::from_parts from src/amount.rs (not among the provided
sources).  Per the spec's Amount tagged union and the denominations exercised by the ibc.rs
tests, a denom of the form cw20:ADDR denotes the contract token at address ADDR and anything
else a native coin. -/
def Amount.from_parts (denom : String) (amount : Nat) : Amount :=
  match denom.data with
  | 'c' :: 'w' :: '2' :: '0' :: ':' :: rest => Amount.Cw20 ⟨String.mk rest, amount⟩
  | _ => Amount.Native ⟨denom, amount⟩

/-- When a submessage triggers the reply callback (cosmwasm ReplyOn). -/
inductive ReplyOn where
  | Always
  | Error
  | Success
  | Neverr
  deriving DecidableEq, Repr

/-- The messages dispatched by this contract (the cosmwasm CosmosMsg cases it uses):
a bank send or a wasm execute. -/
inductive CosmosMsg where
  | Bank (to_address : String) (amount : List Coin)
  | Wasm (contract_addr : String) (msg : Binary) (funds : List Coin)
  deriving DecidableEq, Repr

/-- A submessage: dispatched message plus correlation id, gas limit and reply policy
(cosmwasm SubMsg). -/
structure SubMsg where
  id : Nat
  msg : CosmosMsg
  gas_limit : Option Nat
  reply_on : ReplyOn
  deriving DecidableEq, Repr

/-- SubMsg::reply_on_error: tag a message with a correlation id, no gas limit, and the
reply-only-on-dispatch-failure policy. -/
def SubMsg.reply_on_error (msg : CosmosMsg) (id : Nat) : SubMsg :=
  ⟨id, msg, none, ReplyOn.Error⟩

/-- Response of ibc_packet_receive (cosmwasm IbcReceiveResponse): acknowledgement payload,
submessages and attributes. -/
structure IbcReceiveResponse where
  acknowledgement : Binary
  messages : List SubMsg
  attributes : List (String × String)
  deriving DecidableEq, Repr

/-- Response of the ack / timeout / connect handlers (cosmwasm IbcBasicResponse). -/
structure IbcBasicResponse where
  messages : List SubMsg
  attributes : List (String × String)
  deriving DecidableEq, Repr

/-- Response of the reply handler (cosmwasm Response); data is the optional overwritten
acknowledgement. -/
structure Response where
  data : Option Binary
  messages : List SubMsg
  attributes : List (String × String)
  deriving DecidableEq, Repr

/-- ack_success from ibc.rs: the serialized Ics20Ack::Result(b"1") (byte 49). -/
def ack_success : Binary := Binary.ack (Ics20Ack.Result [49])

/-- ack_fail from ibc.rs: the serialized Ics20Ack::Error carrying the description. -/
def ack_fail (err : String) : Binary := Binary.ack (Ics20Ack.Error err)

/-- from_binary at type Ics20Packet: payloads that are not a serialized Ics20Packet fail with
a (Std / serde) error. -/
def from_binary_packet : Binary → Except ContractError Ics20Packet
  | Binary.packet p => Except.ok p
  | _ => Except.error (ContractError.Std ("Error parsing into type Ics20Packet"))

/-- from_binary at type Ics20Ack. -/
def from_binary_ack : Binary → Except ContractError Ics20Ack
  | Binary.ack a => Except.ok a
  | _ => Except.error (ContractError.Std ("Error parsing into type Ics20Ack"))

/-- Ics20Packet::validate from ibc.rs: amounts above u64::MAX are rejected. -/
def Ics20Packet.validate (p : Ics20Packet) : Except ContractError Unit :=
  if U64_MAX < p.amount then Except.error ContractError.AmountOverflow
  else Except.ok ()

/-- The result carried by a Reply (cosmwasm ContractResult of the submessage execution);
the success payload is not inspected by the contract. -/
inductive SubMsgResult where
  | Ok
  | Err (err : String)
  deriving DecidableEq, Repr

/-- A reply callback message (cosmwasm Reply): correlation id and dispatch result. -/
structure Reply where
  id : Nat
  result : SubMsgResult
  deriving DecidableEq, Repr

/-- The reply entry point from ibc.rs: rejects unknown correlation ids; on a dispatch error it
sets the response data to the serialized failure acknowledgement, on success it returns an
empty response. -/
def reply (r : Reply) : Except ContractError Response :=
  if r.id ≠ SEND_TOKEN_ID then
    Except.error (ContractError.UnknownReplyId r.id)
  else
    match r.result with
    | SubMsgResult.Ok => Except.ok ⟨none, [], []⟩
    | SubMsgResult.Err err => Except.ok ⟨some (ack_fail err), [], []⟩

/-- An IBC channel (cosmwasm IbcChannel): the fields read by ibc.rs. -/
structure IbcChannel where
  endpoint : IbcEndpoint
  counterparty_endpoint : IbcEndpoint
  order : IbcOrder
  version : String
  connection_id : String
  deriving DecidableEq, Repr

/-- Channel-open handshake message (cosmwasm IbcChannelOpenMsg). -/
inductive IbcChannelOpenMsg where
  | OpenInit (channel : IbcChannel)
  | OpenTry (channel : IbcChannel) (counterparty_version : String)
  deriving DecidableEq, Repr

/-- Accessor IbcChannelOpenMsg::channel. -/
def IbcChannelOpenMsg.channel : IbcChannelOpenMsg → IbcChannel
  | IbcChannelOpenMsg.OpenInit c => c
  | IbcChannelOpenMsg.OpenTry c _ => c

/-- Accessor IbcChannelOpenMsg::counterparty_version. -/
def IbcChannelOpenMsg.counterparty_version : IbcChannelOpenMsg → Option String
  | IbcChannelOpenMsg.OpenInit _ => none
  | IbcChannelOpenMsg.OpenTry _ v => some v

/-- Channel-connect handshake message (cosmwasm IbcChannelConnectMsg). -/
inductive IbcChannelConnectMsg where
  | OpenAck (channel : IbcChannel) (counterparty_version : String)
  | OpenConfirm (channel : IbcChannel)
  deriving DecidableEq, Repr

/-- Accessor IbcChannelConnectMsg::channel. -/
def IbcChannelConnectMsg.channel : IbcChannelConnectMsg → IbcChannel
  | IbcChannelConnectMsg.OpenAck c _ => c
  | IbcChannelConnectMsg.OpenConfirm c => c

/-- Accessor IbcChannelConnectMsg::counterparty_version. -/
def IbcChannelConnectMsg.counterparty_version : IbcChannelConnectMsg → Option String
  | IbcChannelConnectMsg.OpenAck _ v => some v
  | IbcChannelConnectMsg.OpenConfirm _ => none

/-- enforce_order_and_version from ibc.rs. -/
def enforce_order_and_version (channel : IbcChannel) (counterparty_version : Option String) :
    Except ContractError Unit :=
  if channel.version ≠ ICS20_VERSION then
    Except.error (ContractError.InvalidIbcVersion channel.version)
  else
    match counterparty_version with
    | some version =>
      if version ≠ ICS20_VERSION then
        Except.error (ContractError.InvalidIbcVersion version)
      else if channel.order ≠ ICS20_ORDERING then
        Except.error ContractError.OnlyOrderedChannel
      else Except.ok ()
    | none =>
      if channel.order ≠ ICS20_ORDERING then
        Except.error ContractError.OnlyOrderedChannel
      else Except.ok ()

/-- ibc_channel_open from ibc.rs: enforces ordering and versioning, touches no state. -/
def ibc_channel_open (msg : IbcChannelOpenMsg) : Except ContractError Unit :=
  enforce_order_and_version msg.channel msg.counterparty_version

/-- ibc_channel_connect from ibc.rs: enforces ordering and versioning, then records the
ChannelInfo under the channel's own id. -/
def ibc_channel_connect (st : Storage) (msg : IbcChannelConnectMsg) :
    Except ContractError IbcBasicResponse × Storage :=
  match enforce_order_and_version msg.channel msg.counterparty_version with
  | Except.error e => (Except.error e, st)
  | Except.ok _ =>
    let channel := msg.channel
    let info : ChannelInfo :=
      ⟨channel.endpoint.channel_id, channel.counterparty_endpoint, channel.connection_id⟩
    (Except.ok ⟨[], []⟩,
      { st with channel_info := fun k => if k = info.id then some info else st.channel_info k })

/-- First split of a character list at a separator: none when the separator never occurs,
otherwise the part before the first occurrence and the rest after it. -/
def splitFirst (sep : Char) : List Char → Option (List Char × List Char)
  | [] => none
  | c :: cs =>
    if c = sep then some ([], cs)
    else
      match splitFirst sep cs with
      | none => none
      | some (l, r) => some (c :: l, r)

/-- Rust str::splitn with a character separator: at most n parts; the last part keeps the
rest of the string unsplit. -/
def rustSplitn (sep : Char) : Nat → List Char → List (List Char)
  | 0, _ => []
  | 1, s => [s]
  | n + 2, s =>
    match splitFirst sep s with
    | none => [s]
    | some (l, r) => l :: rustSplitn sep (n + 1) r

/-- parse_voucher_denom from ibc.rs: splitn(3, '/'); exactly 3 parts whose first two match the
remote endpoint's port and channel; returns the third part as the local denom.  (rustSplitn
with bound 3 yields at most 3 parts, so the source's length != 3 test is the catch-all.) -/
def parse_voucher_denom (voucher_denom : String) (remote_endpoint : IbcEndpoint) :
    Except ContractError String :=
  match rustSplitn '/' 3 voucher_denom.data with
  | [p0, p1, p2] =>
    if String.mk p0 ≠ remote_endpoint.port_id then
      Except.error (ContractError.FromOtherPort (String.mk p0))
    else if String.mk p1 ≠ remote_endpoint.channel_id then
      Except.error (ContractError.FromOtherChannel (String.mk p1))
    else Except.ok (String.mk p2)
  | _ => Except.error ContractError.NoForeignTokens

/-- Uint128::checked_sub: non-wrapping subtraction, none on underflow. -/
def checked_sub (a b : Nat) : Option Nat :=
  if b ≤ a then some (a - b) else none

/-- Map::update on CHANNEL_STATE (cw-storage-plus): load the record, apply the closure, and
save only on success; on a closure error nothing is written (atomic read-modify-write per key,
spec section 9). -/
def channel_state_update (st : Storage) (key : String × String)
    (f : Option ChannelState → Except ContractError ChannelState) :
    Except ContractError ChannelState × Storage :=
  match f (st.channel_state key) with
  | Except.error e => (Except.error e, st)
  | Except.ok v =>
    (Except.ok v,
      { st with channel_state := fun k => if k = key then some v else st.channel_state k })

/-- check_gas_limit from ibc.rs.  The host address-validation primitive (deps.api) is modelled
as the predicate api_valid; a valid address is passed through unchanged (cosmwasm
addr_validate returns its input when it is already normalized, and errors otherwise). -/
def check_gas_limit (st : Storage) (api_valid : String → Bool) (amount : Amount) :
    Except ContractError (Option Nat) :=
  match amount with
  | Amount.Cw20 coin =>
    if api_valid coin.address then
      match st.allow_list coin.address with
      | none => Except.error ContractError.NotOnAllowList
      | some info => Except.ok info.gas_limit
    else
      Except.error (ContractError.Std ("Invalid input: address not normalized"))
  | _ => Except.ok none

/-- send_amount from ibc.rs: a bank send for a native coin, a cw20 Transfer execute for a
contract token (with the gas ceiling attached); both tagged reply-on-error with
SEND_TOKEN_ID. -/
def send_amount (amount : Amount) (recipient : String) (gas_limit : Option Nat) : SubMsg :=
  match amount with
  | Amount.Native coin =>
    SubMsg.reply_on_error (CosmosMsg.Bank recipient [coin]) SEND_TOKEN_ID
  | Amount.Cw20 coin =>
    let msg := Cw20ExecuteMsg.Transfer recipient coin.amount
    let exec := CosmosMsg.Wasm coin.address (Binary.cw20 msg) []
    { SubMsg.reply_on_error exec SEND_TOKEN_ID with gas_limit := gas_limit }

/-- An IBC packet (cosmwasm IbcPacket): data payload, source and destination endpoints,
sequence and timeout (the latter two are never read by ibc.rs). -/
structure IbcPacket where
  data : Binary
  src : IbcEndpoint
  dest : IbcEndpoint
  sequence : Nat
  timeout : Nat
  deriving DecidableEq, Repr

/-- cosmwasm IbcPacketReceiveMsg. -/
structure IbcPacketReceiveMsg where
  packet : IbcPacket
  deriving DecidableEq, Repr

/-- cosmwasm IbcAcknowledgement. -/
structure IbcAcknowledgement where
  data : Binary
  deriving DecidableEq, Repr

/-- cosmwasm IbcPacketAckMsg. -/
structure IbcPacketAckMsg where
  acknowledgement : IbcAcknowledgement
  original_packet : IbcPacket
  deriving DecidableEq, Repr

/-- cosmwasm IbcPacketTimeoutMsg. -/
structure IbcPacketTimeoutMsg where
  packet : IbcPacket
  deriving DecidableEq, Repr

/-- do_ibc_packet_receive from ibc.rs: decode the payload, parse the voucher denom against the
packet's source endpoint, atomically deduct the amount from the (dest channel, denom) ledger
entry, then look up the gas ceiling and build the transfer submessage to the receiver.
Storage writes performed before a later error persist (DepsMut writes are not rolled back by
the contract itself). -/
def do_ibc_packet_receive (st : Storage) (api_valid : String → Bool) (packet : IbcPacket) :
    Except ContractError IbcReceiveResponse × Storage :=
  match from_binary_packet packet.data with
  | Except.error e => (Except.error e, st)
  | Except.ok msg =>
    let channel := packet.dest.channel_id
    match parse_voucher_denom msg.denom packet.src with
    | Except.error e => (Except.error e, st)
    | Except.ok denom =>
      match channel_state_update st (channel, denom) (fun orig =>
          match orig with
          | none => Except.error ContractError.InsufficientFunds
          | some cur =>
            match checked_sub cur.outstanding msg.amount with
            | none => Except.error ContractError.InsufficientFunds
            | some v => Except.ok ⟨v, cur.total_sent⟩) with
      | (Except.error e, st1) => (Except.error e, st1)
      | (Except.ok _, st1) =>
        let to_send := Amount.from_parts denom msg.amount
        match check_gas_limit st1 api_valid to_send with
        | Except.error e => (Except.error e, st1)
        | Except.ok gas_limit =>
          let send := send_amount to_send msg.receiver gas_limit
          (Except.ok
            ⟨ack_success, [send],
              [("action", "receive"), ("sender", msg.sender), ("receiver", msg.receiver),
               ("denom", denom), ("amount", Nat.repr msg.amount), ("success", "true")]⟩,
            st1)

/-- ibc_packet_receive from ibc.rs: runs do_ibc_packet_receive and converts any error into a
successful response whose acknowledgement is the failure acknowledgement carrying the error's
description.  The error type Never is uninhabited. -/
def ibc_packet_receive (st : Storage) (api_valid : String → Bool)
    (msg : IbcPacketReceiveMsg) : Except Never IbcReceiveResponse × Storage :=
  let packet := msg.packet
  match do_ibc_packet_receive st api_valid packet with
  | (Except.ok res, st1) => (Except.ok res, st1)
  | (Except.error err, st1) =>
    (Except.ok
      ⟨ack_fail err.toString, [],
        [("action", "receive"), ("success", "false"), ("error", err.toString)]⟩,
      st1)

/-- on_packet_success from ibc.rs: decode the original packet and credit both outstanding and
total_sent of the (source channel, denom as sent) entry, creating a zero record if absent. -/
def on_packet_success (st : Storage) (packet : IbcPacket) :
    Except ContractError IbcBasicResponse × Storage :=
  match from_binary_packet packet.data with
  | Except.error e => (Except.error e, st)
  | Except.ok msg =>
    let attributes := [("action", "acknowledge"), ("sender", msg.sender),
      ("receiver", msg.receiver), ("denom", msg.denom), ("amount", Nat.repr msg.amount),
      ("success", "true")]
    let channel := packet.src.channel_id
    let denom := msg.denom
    let amount := msg.amount
    match channel_state_update st (channel, denom) (fun orig =>
        let state := orig.getD ⟨0, 0⟩
        Except.ok ⟨state.outstanding + amount, state.total_sent + amount⟩) with
    | (Except.error e, st1) => (Except.error e, st1)
    | (Except.ok _, st1) => (Except.ok ⟨[], attributes⟩, st1)

/-- on_packet_failure from ibc.rs: decode the original packet and build a transfer submessage
returning the amount and denom to the original sender; the ledger is not touched. -/
def on_packet_failure (st : Storage) (api_valid : String → Bool) (packet : IbcPacket)
    (err : String) : Except ContractError IbcBasicResponse × Storage :=
  match from_binary_packet packet.data with
  | Except.error e => (Except.error e, st)
  | Except.ok msg =>
    let to_send := Amount.from_parts msg.denom msg.amount
    match check_gas_limit st api_valid to_send with
    | Except.error e => (Except.error e, st)
    | Except.ok gas_limit =>
      let send := send_amount to_send msg.sender gas_limit
      (Except.ok
        ⟨[send],
          [("action", "acknowledge"), ("sender", msg.sender), ("receiver", msg.receiver),
           ("denom", msg.denom), ("amount", Nat.repr msg.amount), ("success", "false"),
           ("error", err)]⟩,
        st)

/-- ibc_packet_ack from ibc.rs: decode the acknowledgement and dispatch on its variant. -/
def ibc_packet_ack (st : Storage) (api_valid : String → Bool) (msg : IbcPacketAckMsg) :
    Except ContractError IbcBasicResponse × Storage :=
  match from_binary_ack msg.acknowledgement.data with
  | Except.error e => (Except.error e, st)
  | Except.ok (Ics20Ack.Result _) => on_packet_success st msg.original_packet
  | Except.ok (Ics20Ack.Error err) => on_packet_failure st api_valid msg.original_packet err

/-- ibc_packet_timeout from ibc.rs: identical to the acknowledge failure path with the fixed
error string timeout. -/
def ibc_packet_timeout (st : Storage) (api_valid : String → Bool)
    (msg : IbcPacketTimeoutMsg) : Except ContractError IbcBasicResponse × Storage :=
  on_packet_failure st api_valid msg.packet "timeout"

/-- The storage after the inbound-receive ledger deduction at (dest channel, denom):
the entry's outstanding is decreased by the amount, total_sent and all other keys are kept
(abbreviation for stating theorems about do_ibc_packet_receive). -/
def receive_updated (st : Storage) (channel denom : String) (cur : ChannelState)
    (amount : Nat) : Storage :=
  { st with channel_state := fun k =>
      if k = (channel, denom) then some ⟨cur.outstanding - amount, cur.total_sent⟩
      else st.channel_state k }

/-- A host address-validation predicate accepting every address (concrete test scenario). -/
def exApi : String → Bool := fun _ => true

/-- Concrete storage with one ledger entry of 100 outstanding for a cw20 voucher and an empty
allow-list (test scenario for inbound receive of a disallowed token). -/
def exSt2 : Storage :=
  ⟨fun k => if k = ("channel-7", "cw20:tokenaddr") then some ⟨100, 100⟩ else none,
   fun _ => none, fun _ => none⟩

/-- Concrete inbound packet carrying 5 units of the voucher denom
transfer/channel-12/cw20:tokenaddr from the matching remote endpoint. -/
def exPacket2 : IbcPacket :=
  ⟨Binary.packet ⟨5, "transfer/channel-12/cw20:tokenaddr", "local-rcpt", "remote-sender"⟩,
   ⟨"transfer", "channel-12"⟩, ⟨"wasm.contract", "channel-7"⟩, 3, 0⟩

/-- Concrete storage with one native ledger entry (test scenario for the failure path). -/
def exSt3 : Storage :=
  ⟨fun k => if k = ("channel-2", "uatom") then some ⟨50, 80⟩ else none,
   fun _ => none, fun _ => none⟩

/-- Concrete original (sent) packet of 7 uatom over channel-2 (test scenario for timeout). -/
def exPacket3 : IbcPacket :=
  ⟨Binary.packet ⟨7, "uatom", "remote-rcpt", "local-sender"⟩,
   ⟨"wasm.contract", "channel-2"⟩, ⟨"transfer", "channel-40"⟩, 2, 0⟩

/-- Concrete storage whose ledger entry holds 2^64 outstanding ucosm (test scenario for an
oversized inbound amount). -/
def exSt6 : Storage :=
  ⟨fun k =>
      if k = ("channel-3", "ucosm") then some ⟨18446744073709551616, 18446744073709551616⟩
      else none,
   fun _ => none, fun _ => none⟩

/-- Concrete inbound packet whose amount 2^64 exceeds u64::MAX. -/
def exPacket6 : IbcPacket :=
  ⟨Binary.packet
      ⟨18446744073709551616, "transfer/channel-11/ucosm", "local-rcpt", "remote-sender"⟩,
   ⟨"transfer", "channel-11"⟩, ⟨"wasm.contract", "channel-3"⟩, 9, 0⟩

/-- Concrete well-formed channel (version ics20-1, unordered). -/
def exChannel : IbcChannel :=
  ⟨⟨"wasm.contract", "channel-5"⟩, ⟨"transfer", "channel-77"⟩, IbcOrder.Unordered,
   "ics20-1", "connection-3"⟩

/-- Empty concrete storage. -/
def exStEmpty : Storage := ⟨fun _ => none, fun _ => none, fun _ => none⟩

/-- Concrete channel-connect message for the well-formed channel. -/
def exConnMsg : IbcChannelConnectMsg := IbcChannelConnectMsg.OpenAck exChannel ("ics20-1")

/-- Concrete storage for the ack-success scenario: entry (channel-9, cw20:tok) set to
outstanding 20 and total_sent 30. -/
def exSt5 : Storage :=
  ⟨fun k => if k = ("channel-9", "cw20:tok") then some ⟨20, 30⟩ else none,
   fun _ => none, fun _ => none⟩

/-- Concrete ack message: success acknowledgement for an original packet of 11 cw20:tok sent
over channel-9. -/
def exAckMsg5 : IbcPacketAckMsg :=
  ⟨⟨Binary.ack (Ics20Ack.Result [49])⟩,
   ⟨Binary.packet ⟨11, "cw20:tok", "remote-rcpt", "local-sender"⟩,
    ⟨"wasm.contract", "channel-9"⟩, ⟨"transfer", "channel-1234"⟩, 2, 0⟩⟩

/-- rustSplitn with bound n + 1 yields at most n + 1 parts. -/
theorem rustSplitn_length_le (sep : Char) (n : Nat) : ∀ s : List Char,
    (rustSplitn sep (n + 1) s).length ≤ n + 1 := by
  induction n with
  | zero => intro s; simp [rustSplitn]
  | succ m ih =>
    intro s
    show (rustSplitn sep (m + 2) s).length ≤ m + 2
    rw [rustSplitn]
    cases h : splitFirst sep s with
    | none => simp
    | some lr =>
      obtain ⟨l, r⟩ := lr
      simpa using ih r

/-- C7: parse_voucher_denom splits the voucher denomination on the slash into at most 3
parts; fewer than 3 parts yields NoForeignTokens, a first part differing from the remote
port yields FromOtherPort, a second part differing from the remote channel yields
FromOtherChannel, and otherwise the third part is returned as the local denom. -/
theorem c7_parse_voucher_denom (s : String) (remote : IbcEndpoint) :
    (rustSplitn '/' 3 s.data).length ≤ 3 ∧
    ((rustSplitn '/' 3 s.data).length < 3 →
      parse_voucher_denom s remote = Except.error ContractError.NoForeignTokens) ∧
    (∀ a b c, rustSplitn '/' 3 s.data = [a, b, c] →
      (String.mk a ≠ remote.port_id →
        parse_voucher_denom s remote =
          Except.error (ContractError.FromOtherPort (String.mk a))) ∧
      (String.mk a = remote.port_id → String.mk b ≠ remote.channel_id →
        parse_voucher_denom s remote =
          Except.error (ContractError.FromOtherChannel (String.mk b))) ∧
      (String.mk a = remote.port_id → String.mk b = remote.channel_id →
        parse_voucher_denom s remote = Except.ok (String.mk c))) := by
  refine ⟨rustSplitn_length_le '/' 2 s.data, ?_, ?_⟩
  · intro hlt
    unfold parse_voucher_denom
    cases h : rustSplitn '/' 3 s.data with
    | nil => rfl
    | cons a t =>
      cases t with
      | nil => rfl
      | cons b t2 =>
        cases t2 with
        | nil => rfl
        | cons c t3 =>
          cases t3 with
          | nil => rw [h] at hlt; simp at hlt
          | cons d t4 => rfl
  · intro a b c h
    refine ⟨?_, ?_, ?_⟩
    · intro hp
      simp only [parse_voucher_denom, h]
      rw [if_pos hp]
    · intro hp hc
      simp only [parse_voucher_denom, h]
      rw [if_neg (not_not_intro hp), if_pos hc]
    · intro hp hc
      simp only [parse_voucher_denom, h]
      rw [if_neg (not_not_intro hp), if_neg (not_not_intro hc)]

/-- Witness for C7 at a concrete three-part voucher denomination. -/
theorem c7_witness :
    rustSplitn '/' 3 (String.data ("transfer/channel-7/ucosm")) =
      [String.data ("transfer"), String.data ("channel-7"), String.data ("ucosm")] ∧
    parse_voucher_denom ("transfer/channel-7/ucosm") ⟨"transfer", "channel-7"⟩ =
      Except.ok (String.mk (String.data ("ucosm"))) := by
  constructor
  · decide
  · exact ((c7_parse_voucher_denom ("transfer/channel-7/ucosm")
      ⟨"transfer", "channel-7"⟩).2.2 (String.data ("transfer")) (String.data ("channel-7"))
      (String.data ("ucosm")) (by decide)).2.2 (by decide) (by decide)

/-- C10: the reply dispatch-callback rejects any correlation id other than SEND_TOKEN_ID with
UnknownReplyId; with the expected id it rewrites the response data to the serialized Error
acknowledgement on a dispatch error, and returns an empty response (no rewritten
acknowledgement) on dispatch success. -/
theorem c10_reply (r : Reply) :
    (r.id ≠ SEND_TOKEN_ID → reply r = Except.error (ContractError.UnknownReplyId r.id)) ∧
    (r.id = SEND_TOKEN_ID →
      (∀ err, r.result = SubMsgResult.Err err →
        reply r = Except.ok ⟨some (ack_fail err), [], []⟩) ∧
      (r.result = SubMsgResult.Ok → reply r = Except.ok ⟨none, [], []⟩)) := by
  constructor
  · intro h
    simp [reply, h]
  · intro h
    constructor
    · intro err herr
      simp [reply, h, herr]
    · intro hok
      simp [reply, h, hok]

/-- Witness for C10 at the expected correlation id with a failed dispatch result. -/
theorem c10_witness :
    (1337 : Nat) = SEND_TOKEN_ID ∧
    reply ⟨1337, SubMsgResult.Err ("dispatch failed")⟩ =
      Except.ok ⟨some (ack_fail ("dispatch failed")), [], []⟩ := by
  constructor
  · decide
  · exact ((c10_reply ⟨1337, SubMsgResult.Err ("dispatch failed")⟩).2 (by decide)).1
      ("dispatch failed") rfl

/-- C6 (amended): Ics20Packet.validate fails with AmountOverflow exactly when the amount
exceeds u64::MAX and succeeds exactly otherwise; the inbound receive path, however, never
invokes this validation (see the counterexample). -/
theorem c6_validate_iff (p : Ics20Packet) :
    (Ics20Packet.validate p = Except.error ContractError.AmountOverflow ↔
      U64_MAX < p.amount) ∧
    (Ics20Packet.validate p = Except.ok () ↔ p.amount ≤ U64_MAX) := by
  unfold Ics20Packet.validate
  split <;> simp_all

/-- Helper: a payload decode failure makes do_ibc_packet_receive fail with that error and
leave the storage untouched. -/
theorem do_receive_decode_err (st : Storage) (api_valid : String → Bool) (packet : IbcPacket)
    (e : ContractError) (h : from_binary_packet packet.data = Except.error e) :
    do_ibc_packet_receive st api_valid packet = (Except.error e, st) := by
  simp [do_ibc_packet_receive, h]

/-- Helper: a voucher-denom rejection makes do_ibc_packet_receive fail with that error and
leave the storage untouched. -/
theorem do_receive_parse_err (st : Storage) (api_valid : String → Bool) (packet : IbcPacket)
    (m : Ics20Packet) (e : ContractError)
    (hm : from_binary_packet packet.data = Except.ok m)
    (h : parse_voucher_denom m.denom packet.src = Except.error e) :
    do_ibc_packet_receive st api_valid packet = (Except.error e, st) := by
  simp [do_ibc_packet_receive, hm, h]

/-- Helper: with no (channel, denom) ledger record, do_ibc_packet_receive fails with
InsufficientFunds and leaves the storage untouched. -/
theorem do_receive_no_record (st : Storage) (api_valid : String → Bool) (packet : IbcPacket)
    (m : Ics20Packet) (denom : String)
    (hm : from_binary_packet packet.data = Except.ok m)
    (hd : parse_voucher_denom m.denom packet.src = Except.ok denom)
    (hnone : st.channel_state (packet.dest.channel_id, denom) = none) :
    do_ibc_packet_receive st api_valid packet =
      (Except.error ContractError.InsufficientFunds, st) := by
  simp [do_ibc_packet_receive, hm, hd, channel_state_update, hnone]

/-- Helper: with insufficient outstanding funds, do_ibc_packet_receive fails with
InsufficientFunds and leaves the storage untouched. -/
theorem do_receive_underflow (st : Storage) (api_valid : String → Bool) (packet : IbcPacket)
    (m : Ics20Packet) (denom : String) (cur : ChannelState)
    (hm : from_binary_packet packet.data = Except.ok m)
    (hd : parse_voucher_denom m.denom packet.src = Except.ok denom)
    (hcur : st.channel_state (packet.dest.channel_id, denom) = some cur)
    (hlt : cur.outstanding < m.amount) :
    do_ibc_packet_receive st api_valid packet =
      (Except.error ContractError.InsufficientFunds, st) := by
  have hnle : ¬ m.amount ≤ cur.outstanding := Nat.not_le.mpr hlt
  simp [do_ibc_packet_receive, hm, hd, channel_state_update, hcur, checked_sub, hnle]

/-- Helper: with sufficient outstanding funds the ledger entry is deducted and the rest of
do_ibc_packet_receive is the gas-limit check over the updated storage. -/
theorem do_receive_ok_update (st : Storage) (api_valid : String → Bool) (packet : IbcPacket)
    (m : Ics20Packet) (denom : String) (cur : ChannelState)
    (hm : from_binary_packet packet.data = Except.ok m)
    (hd : parse_voucher_denom m.denom packet.src = Except.ok denom)
    (hcur : st.channel_state (packet.dest.channel_id, denom) = some cur)
    (hle : m.amount ≤ cur.outstanding) :
    do_ibc_packet_receive st api_valid packet =
      (match check_gas_limit (receive_updated st packet.dest.channel_id denom cur m.amount)
          api_valid (Amount.from_parts denom m.amount) with
       | Except.error e =>
         (Except.error e, receive_updated st packet.dest.channel_id denom cur m.amount)
       | Except.ok gas_limit =>
         (Except.ok
           ⟨ack_success,
             [send_amount (Amount.from_parts denom m.amount) m.receiver gas_limit],
             [("action", "receive"), ("sender", m.sender), ("receiver", m.receiver),
              ("denom", denom), ("amount", Nat.repr m.amount), ("success", "true")]⟩,
          receive_updated st packet.dest.channel_id denom cur m.amount)) := by
  simp [do_ibc_packet_receive, hm, hd, channel_state_update, hcur, checked_sub, hle,
    receive_updated]

/-- Helper: every error of check_gas_limit is NotOnAllowList or a Std (address-validation)
error. -/
theorem check_gas_limit_error_shape (st : Storage) (api_valid : String → Bool) (a : Amount)
    (e : ContractError) (h : check_gas_limit st api_valid a = Except.error e) :
    e = ContractError.NotOnAllowList ∨ ∃ s, e = ContractError.Std s := by
  cases a with
  | Native c => simp [check_gas_limit] at h
  | Cw20 coin =>
    by_cases hv : api_valid coin.address
    · cases hal : st.allow_list coin.address with
      | none =>
        simp [check_gas_limit, hv, hal] at h
        left
        exact h.symm
      | some info => simp [check_gas_limit, hv, hal] at h
    · simp [check_gas_limit, hv] at h
      right
      exact ⟨_, h.symm⟩

/-- Helper: the allow_list and channel_info maps of the deducted storage are those of the
original storage. -/
theorem receive_updated_other (st : Storage) (channel denom : String) (cur : ChannelState)
    (amount : Nat) :
    (receive_updated st channel denom cur amount).allow_list = st.allow_list ∧
    (receive_updated st channel denom cur amount).channel_info = st.channel_info := by
  constructor <;> rfl

/-- C4: the inbound-receive ledger update is all-or-nothing: a missing (channel, denom)
record fails with InsufficientFunds leaving the storage unchanged; an amount above the
record's outstanding fails with InsufficientFunds leaving the storage unchanged; otherwise
the record is persisted with outstanding decreased by exactly the amount and total_sent
untouched (and the exact subtraction shows outstanding never goes below zero). -/
theorem c4_reserve_on_receive (st : Storage) (api_valid : String → Bool) (packet : IbcPacket)
    (m : Ics20Packet) (denom : String)
    (hm : from_binary_packet packet.data = Except.ok m)
    (hd : parse_voucher_denom m.denom packet.src = Except.ok denom) :
    (st.channel_state (packet.dest.channel_id, denom) = none →
      do_ibc_packet_receive st api_valid packet =
        (Except.error ContractError.InsufficientFunds, st)) ∧
    (∀ cur, st.channel_state (packet.dest.channel_id, denom) = some cur →
      cur.outstanding < m.amount →
      do_ibc_packet_receive st api_valid packet =
        (Except.error ContractError.InsufficientFunds, st)) ∧
    (∀ cur, st.channel_state (packet.dest.channel_id, denom) = some cur →
      m.amount ≤ cur.outstanding →
      (do_ibc_packet_receive st api_valid packet).2.channel_state
          (packet.dest.channel_id, denom) =
        some ⟨cur.outstanding - m.amount, cur.total_sent⟩ ∧
      (∀ k, k ≠ (packet.dest.channel_id, denom) →
        (do_ibc_packet_receive st api_valid packet).2.channel_state k =
          st.channel_state k) ∧
      m.amount + (cur.outstanding - m.amount) = cur.outstanding) := by
  refine ⟨?_, ?_, ?_⟩
  · intro hnone
    exact do_receive_no_record st api_valid packet m denom hm hd hnone
  · intro cur hcur hlt
    exact do_receive_underflow st api_valid packet m denom cur hm hd hcur hlt
  · intro cur hcur hle
    have hsub : m.amount + (cur.outstanding - m.amount) = cur.outstanding := by omega
    rw [do_receive_ok_update st api_valid packet m denom cur hm hd hcur hle]
    cases hg : check_gas_limit (receive_updated st packet.dest.channel_id denom cur m.amount)
        api_valid (Amount.from_parts denom m.amount) with
    | error e =>
      refine ⟨?_, ?_, hsub⟩
      · simp [receive_updated]
      · intro k hk
        simp [receive_updated, hk]
    | ok gas_limit =>
      refine ⟨?_, ?_, hsub⟩
      · simp [receive_updated]
      · intro k hk
        simp [receive_updated, hk]

/-- Witness for C4: a sufficient concrete receive deducts exactly the amount. -/
theorem c4_witness :
    from_binary_packet exPacket2.data =
      Except.ok ⟨5, "transfer/channel-12/cw20:tokenaddr", "local-rcpt", "remote-sender"⟩ ∧
    parse_voucher_denom "transfer/channel-12/cw20:tokenaddr" exPacket2.src =
      Except.ok ("cw20:tokenaddr") ∧
    exSt2.channel_state ("channel-7", "cw20:tokenaddr") = some ⟨100, 100⟩ ∧
    (5 : Nat) ≤ 100 ∧
    (do_ibc_packet_receive exSt2 exApi exPacket2).2.channel_state
        ("channel-7", "cw20:tokenaddr") = some ⟨95, 100⟩ := by
  refine ⟨rfl, by decide, rfl, by decide, ?_⟩
  have h := ((c4_reserve_on_receive exSt2 exApi exPacket2
      ⟨5, "transfer/channel-12/cw20:tokenaddr", "local-rcpt", "remote-sender"⟩
      ("cw20:tokenaddr") rfl (by decide)).2.2 ⟨100, 100⟩ rfl (by decide)).1
  exact h

/-- C1: ibc_packet_receive never returns a protocol-level error (its error type Never is
uninhabited and the result is always Except.ok); on any internal failure of
do_ibc_packet_receive it returns the failure acknowledgement carrying the error's textual
description, and on success it returns the success acknowledgement plus exactly one transfer
submessage built for the packet's receiver. -/
theorem c1_receive_never_errors (st : Storage) (api_valid : String → Bool)
    (msg : IbcPacketReceiveMsg) :
    (∀ e : Never, False) ∧
    (∃ res st1, ibc_packet_receive st api_valid msg = (Except.ok res, st1)) ∧
    (∀ err st1, do_ibc_packet_receive st api_valid msg.packet = (Except.error err, st1) →
      ibc_packet_receive st api_valid msg =
        (Except.ok ⟨ack_fail err.toString, [],
          [("action", "receive"), ("success", "false"), ("error", err.toString)]⟩, st1)) ∧
    (∀ res st1, do_ibc_packet_receive st api_valid msg.packet = (Except.ok res, st1) →
      ibc_packet_receive st api_valid msg = (Except.ok res, st1) ∧
      ∃ m denom gas_limit,
        from_binary_packet msg.packet.data = Except.ok m ∧
        parse_voucher_denom m.denom msg.packet.src = Except.ok denom ∧
        res.acknowledgement = ack_success ∧
        res.messages =
          [send_amount (Amount.from_parts denom m.amount) m.receiver gas_limit]) := by
  refine ⟨?_, ?_, ?_, ?_⟩
  · intro nv
    exact nomatch nv
  · rcases h : do_ibc_packet_receive st api_valid msg.packet with ⟨r, s2⟩
    cases r with
    | ok res => exact ⟨res, s2, by simp [ibc_packet_receive, h]⟩
    | error err =>
      exact ⟨⟨ack_fail err.toString, [],
        [("action", "receive"), ("success", "false"), ("error", err.toString)]⟩, s2,
        by simp [ibc_packet_receive, h]⟩
  · intro err st1 h
    simp [ibc_packet_receive, h]
  · intro res st1 h
    constructor
    · simp [ibc_packet_receive, h]
    · cases hm : from_binary_packet msg.packet.data with
      | error e =>
        rw [do_receive_decode_err st api_valid msg.packet e hm] at h
        injection h with h1 h2
        injection h1
      | ok m =>
        cases hd : parse_voucher_denom m.denom msg.packet.src with
        | error e =>
          rw [do_receive_parse_err st api_valid msg.packet m e hm hd] at h
          injection h with h1 h2
          injection h1
        | ok denom =>
          cases hcur : st.channel_state (msg.packet.dest.channel_id, denom) with
          | none =>
            rw [do_receive_no_record st api_valid msg.packet m denom hm hd hcur] at h
            injection h with h1 h2
            injection h1
          | some cur =>
            by_cases hle : m.amount ≤ cur.outstanding
            · rw [do_receive_ok_update st api_valid msg.packet m denom cur hm hd hcur hle]
                at h
              cases hg : check_gas_limit
                  (receive_updated st msg.packet.dest.channel_id denom cur m.amount)
                  api_valid (Amount.from_parts denom m.amount) with
              | error e =>
                rw [hg] at h
                injection h with h1 h2
                injection h1
              | ok gas_limit =>
                rw [hg] at h
                injection h with h1 h2
                injection h1 with h3
                refine ⟨m, denom, gas_limit, rfl, hd, ?_, ?_⟩
                · rw [← h3]
                · rw [← h3]
            · rw [do_receive_underflow st api_valid msg.packet m denom cur hm hd hcur
                (Nat.not_le.mp hle)] at h
              injection h with h1 h2
              injection h1

/-- Witness for C1: the failure branch at a concrete receive with no ledger record, which
yields the InsufficientFunds failure acknowledgement. -/
theorem c1_witness :
    do_ibc_packet_receive exSt3 exApi exPacket2 =
      (Except.error ContractError.InsufficientFunds, exSt3) ∧
    ibc_packet_receive exSt3 exApi ⟨exPacket2⟩ =
      (Except.ok
        ⟨ack_fail (ContractError.toString ContractError.InsufficientFunds), [],
          [("action", "receive"), ("success", "false"),
           ("error", ContractError.toString ContractError.InsufficientFunds)]⟩, exSt3) := by
  have h : do_ibc_packet_receive exSt3 exApi exPacket2 =
      (Except.error ContractError.InsufficientFunds, exSt3) := rfl
  exact ⟨h, (c1_receive_never_errors exSt3 exApi ⟨exPacket2⟩).2.2.1
    ContractError.InsufficientFunds exSt3 h⟩

/-- C2 counterexample: at a concrete receive of a cw20 voucher that is not on the allow-list,
ibc_packet_receive returns the NotOnAllowList failure acknowledgement, yet the (channel,
denom) ledger entry's outstanding has been decreased from 100 to 95: the deduction performed
before the allow-list check persists, so the state is not identical to the pre-state. -/
theorem c2_counterexample :
    (ibc_packet_receive exSt2 exApi ⟨exPacket2⟩).1 =
      Except.ok
        ⟨ack_fail (ContractError.toString ContractError.NotOnAllowList), [],
          [("action", "receive"), ("success", "false"),
           ("error", ContractError.toString ContractError.NotOnAllowList)]⟩ ∧
    exSt2.channel_state ("channel-7", "cw20:tokenaddr") = some ⟨100, 100⟩ ∧
    (ibc_packet_receive exSt2 exApi ⟨exPacket2⟩).2.channel_state
        ("channel-7", "cw20:tokenaddr") = some ⟨95, 100⟩ := by
  refine ⟨rfl, rfl, rfl⟩

/-- C2 (amended): whenever ibc_packet_receive returns a failure acknowledgement, channel_info
and allow_list are unchanged and either the whole state is unchanged (decode failure,
voucher-denom rejection, insufficient funds), or the error arose in the post-deduction
gas-limit/allow-list step (NotOnAllowList or an address-validation Std error) and exactly the
(dest channel, denom) entry's outstanding has been decreased by the packet amount, total_sent
and all other entries unchanged. -/
theorem c2_state_on_failure (st : Storage) (api_valid : String → Bool)
    (msg : IbcPacketReceiveMsg) (err : ContractError) (st1 : Storage)
    (h : do_ibc_packet_receive st api_valid msg.packet = (Except.error err, st1)) :
    ibc_packet_receive st api_valid msg =
      (Except.ok ⟨ack_fail err.toString, [],
        [("action", "receive"), ("success", "false"), ("error", err.toString)]⟩, st1) ∧
    st1.channel_info = st.channel_info ∧
    st1.allow_list = st.allow_list ∧
    (st1 = st ∨
      ∃ m denom cur,
        from_binary_packet msg.packet.data = Except.ok m ∧
        parse_voucher_denom m.denom msg.packet.src = Except.ok denom ∧
        st.channel_state (msg.packet.dest.channel_id, denom) = some cur ∧
        m.amount ≤ cur.outstanding ∧
        (err = ContractError.NotOnAllowList ∨ ∃ s, err = ContractError.Std s) ∧
        st1 = receive_updated st msg.packet.dest.channel_id denom cur m.amount) := by
  refine ⟨by simp [ibc_packet_receive, h], ?_⟩
  cases hm : from_binary_packet msg.packet.data with
  | error e =>
    rw [do_receive_decode_err st api_valid msg.packet e hm] at h
    injection h with h1 h2
    subst h2
    exact ⟨rfl, rfl, Or.inl rfl⟩
  | ok m =>
    cases hd : parse_voucher_denom m.denom msg.packet.src with
    | error e =>
      rw [do_receive_parse_err st api_valid msg.packet m e hm hd] at h
      injection h with h1 h2
      subst h2
      exact ⟨rfl, rfl, Or.inl rfl⟩
    | ok denom =>
      cases hcur : st.channel_state (msg.packet.dest.channel_id, denom) with
      | none =>
        rw [do_receive_no_record st api_valid msg.packet m denom hm hd hcur] at h
        injection h with h1 h2
        subst h2
        exact ⟨rfl, rfl, Or.inl rfl⟩
      | some cur =>
        by_cases hle : m.amount ≤ cur.outstanding
        · rw [do_receive_ok_update st api_valid msg.packet m denom cur hm hd hcur hle] at h
          cases hg : check_gas_limit
              (receive_updated st msg.packet.dest.channel_id denom cur m.amount)
              api_valid (Amount.from_parts denom m.amount) with
          | error e =>
            rw [hg] at h
            injection h with h1 h2
            injection h1 with h3
            subst h2
            subst h3
            refine ⟨rfl, rfl, Or.inr ⟨m, denom, cur, rfl, hd, hcur, hle, ?_, rfl⟩⟩
            exact check_gas_limit_error_shape
              (receive_updated st msg.packet.dest.channel_id denom cur m.amount)
              api_valid (Amount.from_parts denom m.amount) e hg
          | ok gas_limit =>
            rw [hg] at h
            injection h with h1 h2
            injection h1
        · rw [do_receive_underflow st api_valid msg.packet m denom cur hm hd hcur
            (Nat.not_le.mp hle)] at h
          injection h with h1 h2
          subst h2
          exact ⟨rfl, rfl, Or.inl rfl⟩

/-- Witness for C2 (amended): the decode-failure branch at a concrete malformed payload
yields the failure acknowledgement with the state unchanged. -/
theorem c2_witness :
    do_ibc_packet_receive exStEmpty exApi
      ⟨Binary.invalid ("garbage"), ⟨"transfer", "channel-12"⟩,
        ⟨"wasm.contract", "channel-7"⟩, 1, 0⟩ =
      (Except.error (ContractError.Std ("Error parsing into type Ics20Packet")), exStEmpty) ∧
    ibc_packet_receive exStEmpty exApi
        ⟨⟨Binary.invalid ("garbage"), ⟨"transfer", "channel-12"⟩,
          ⟨"wasm.contract", "channel-7"⟩, 1, 0⟩⟩ =
      (Except.ok
        ⟨ack_fail (ContractError.toString
            (ContractError.Std ("Error parsing into type Ics20Packet"))), [],
          [("action", "receive"), ("success", "false"),
           ("error", ContractError.toString
             (ContractError.Std ("Error parsing into type Ics20Packet")))]⟩,
       exStEmpty) := by
  have h : do_ibc_packet_receive exStEmpty exApi
      ⟨Binary.invalid ("garbage"), ⟨"transfer", "channel-12"⟩,
        ⟨"wasm.contract", "channel-7"⟩, 1, 0⟩ =
      (Except.error (ContractError.Std ("Error parsing into type Ics20Packet")), exStEmpty) :=
    rfl
  exact ⟨h, (c2_state_on_failure exStEmpty exApi
    ⟨⟨Binary.invalid ("garbage"), ⟨"transfer", "channel-12"⟩,
      ⟨"wasm.contract", "channel-7"⟩, 1, 0⟩⟩
    (ContractError.Std ("Error parsing into type Ics20Packet")) exStEmpty h).1⟩

/-- C3 counterexample: at a concrete timeout of a sent packet of 7 uatom over channel-2, the
(channel-2, uatom) ledger entry keeps outstanding 50 — it is not increased to 57 as the claim
requires — while the refund submessage is emitted. -/
theorem c3_counterexample :
    exSt3.channel_state ("channel-2", "uatom") = some ⟨50, 80⟩ ∧
    (ibc_packet_timeout exSt3 exApi ⟨exPacket3⟩).2.channel_state ("channel-2", "uatom") =
      some ⟨50, 80⟩ ∧
    ¬ (ibc_packet_timeout exSt3 exApi ⟨exPacket3⟩).2.channel_state ("channel-2", "uatom") =
      some ⟨57, 80⟩ ∧
    (ibc_packet_timeout exSt3 exApi ⟨exPacket3⟩).1 =
      Except.ok
        ⟨[send_amount (Amount.Native ⟨"uatom", 7⟩) ("local-sender") none],
          [("action", "acknowledge"), ("sender", "local-sender"),
           ("receiver", "remote-rcpt"), ("denom", "uatom"), ("amount", Nat.repr 7),
           ("success", "false"), ("error", "timeout")]⟩ := by
  refine ⟨rfl, rfl, by decide, rfl⟩

/-- C3 (amended): on the shared failure path (an acknowledgement decoded to the Error
variant, or a timeout with the fixed error string timeout) the ledger is left entirely
unchanged — the whole storage is returned as-is, so neither outstanding nor total_sent moves
— while a transfer submessage returning the original amount and denom to the packet's
original sender is emitted, tagged with SEND_TOKEN_ID and the reply-only-on-dispatch-failure
policy. -/
theorem c3_failure_path (st : Storage) (api_valid : String → Bool) (packet : IbcPacket)
    (err : String) (amsg : IbcPacketAckMsg) :
    (on_packet_failure st api_valid packet err).2 = st ∧
    ibc_packet_timeout st api_valid ⟨packet⟩ =
      on_packet_failure st api_valid packet "timeout" ∧
    (amsg.acknowledgement.data = Binary.ack (Ics20Ack.Error err) →
      ibc_packet_ack st api_valid amsg =
        on_packet_failure st api_valid amsg.original_packet err) ∧
    (∀ m gas_limit,
      from_binary_packet packet.data = Except.ok m →
      check_gas_limit st api_valid (Amount.from_parts m.denom m.amount) =
        Except.ok gas_limit →
      (on_packet_failure st api_valid packet err).1 =
        Except.ok
          ⟨[send_amount (Amount.from_parts m.denom m.amount) m.sender gas_limit],
            [("action", "acknowledge"), ("sender", m.sender), ("receiver", m.receiver),
             ("denom", m.denom), ("amount", Nat.repr m.amount), ("success", "false"),
             ("error", err)]⟩ ∧
      (send_amount (Amount.from_parts m.denom m.amount) m.sender gas_limit).id =
        SEND_TOKEN_ID ∧
      (send_amount (Amount.from_parts m.denom m.amount) m.sender gas_limit).reply_on =
        ReplyOn.Error) := by
  refine ⟨?_, rfl, ?_, ?_⟩
  · cases hm : from_binary_packet packet.data with
    | error e => simp [on_packet_failure, hm]
    | ok m =>
      cases hg : check_gas_limit st api_valid (Amount.from_parts m.denom m.amount) with
      | error e => simp [on_packet_failure, hm, hg]
      | ok gas_limit => simp [on_packet_failure, hm, hg]
  · intro hdata
    simp [ibc_packet_ack, hdata, from_binary_ack]
  · intro m gas_limit hm hg
    refine ⟨by simp [on_packet_failure, hm, hg], ?_, ?_⟩
    · cases hfp : Amount.from_parts m.denom m.amount with
      | Native c => simp [hfp, send_amount, SubMsg.reply_on_error]
      | Cw20 c => simp [hfp, send_amount, SubMsg.reply_on_error]
    · cases hfp : Amount.from_parts m.denom m.amount with
      | Native c => simp [hfp, send_amount, SubMsg.reply_on_error]
      | Cw20 c => simp [hfp, send_amount, SubMsg.reply_on_error]

/-- Witness for C3 (amended): the refund branch at a concrete ack-error message for a sent
native packet. -/
theorem c3_witness :
    from_binary_packet exPacket3.data =
      Except.ok ⟨7, "uatom", "remote-rcpt", "local-sender"⟩ ∧
    check_gas_limit exSt3 exApi (Amount.from_parts ("uatom") 7) = Except.ok none ∧
    (on_packet_failure exSt3 exApi exPacket3 ("insufficient funds")).1 =
      Except.ok
        ⟨[send_amount (Amount.from_parts ("uatom") 7) ("local-sender") none],
          [("action", "acknowledge"), ("sender", "local-sender"),
           ("receiver", "remote-rcpt"), ("denom", "uatom"), ("amount", Nat.repr 7),
           ("success", "false"), ("error", "insufficient funds")]⟩ := by
  refine ⟨rfl, rfl, ?_⟩
  exact ((c3_failure_path exSt3 exApi exPacket3 ("insufficient funds")
    ⟨⟨Binary.ack (Ics20Ack.Error ("insufficient funds"))⟩, exPacket3⟩).2.2.2
    ⟨7, "uatom", "remote-rcpt", "local-sender"⟩ none rfl rfl).1

/-- C5: an acknowledgement decoding to the Result variant routes to on_packet_success, which
updates the entry keyed by the packet's source channel and the denom as sent: it loads the
existing record or a zero default, adds the amount to both outstanding and total_sent, leaves
every other key unchanged, and emits no transfer message.  (The bounds keep the Nat model
inside the domain where the Rust Uint128 additions do not panic.) -/
theorem c5_ack_success (st : Storage) (api_valid : String → Bool) (msg : IbcPacketAckMsg)
    (b : List Nat) (m : Ics20Packet) (prev : ChannelState)
    (hack : from_binary_ack msg.acknowledgement.data = Except.ok (Ics20Ack.Result b))
    (hm : from_binary_packet msg.original_packet.data = Except.ok m)
    (hprev : (st.channel_state (msg.original_packet.src.channel_id, m.denom)).getD ⟨0, 0⟩ =
      prev)
    (_hb1 : prev.outstanding + m.amount < 2 ^ 128)
    (_hb2 : prev.total_sent + m.amount < 2 ^ 128) :
    ibc_packet_ack st api_valid msg = on_packet_success st msg.original_packet ∧
    (ibc_packet_ack st api_valid msg).2.channel_state
        (msg.original_packet.src.channel_id, m.denom) =
      some ⟨prev.outstanding + m.amount, prev.total_sent + m.amount⟩ ∧
    (∀ k, k ≠ (msg.original_packet.src.channel_id, m.denom) →
      (ibc_packet_ack st api_valid msg).2.channel_state k = st.channel_state k) ∧
    (ibc_packet_ack st api_valid msg).1 =
      Except.ok
        ⟨[], [("action", "acknowledge"), ("sender", m.sender), ("receiver", m.receiver),
          ("denom", m.denom), ("amount", Nat.repr m.amount), ("success", "true")]⟩ := by
  have hroute : ibc_packet_ack st api_valid msg = on_packet_success st msg.original_packet :=
    by simp [ibc_packet_ack, hack]
  have hsucc : on_packet_success st msg.original_packet =
      (Except.ok
        ⟨[], [("action", "acknowledge"), ("sender", m.sender), ("receiver", m.receiver),
          ("denom", m.denom), ("amount", Nat.repr m.amount), ("success", "true")]⟩,
       { st with channel_state := fun k =>
           if k = (msg.original_packet.src.channel_id, m.denom) then
             some ⟨prev.outstanding + m.amount, prev.total_sent + m.amount⟩
           else st.channel_state k }) := by
    simp [on_packet_success, hm, channel_state_update, hprev]
  refine ⟨hroute, ?_, ?_, ?_⟩
  · rw [hroute, hsucc]
    simp
  · intro k hk
    rw [hroute, hsucc]
    simp [hk]
  · rw [hroute, hsucc]

/-- Witness for C5 at a concrete success acknowledgement: the (channel-9, cw20:tok) entry
goes from (20, 30) to (31, 41). -/
theorem c5_witness :
    from_binary_ack exAckMsg5.acknowledgement.data =
      Except.ok (Ics20Ack.Result [49]) ∧
    from_binary_packet exAckMsg5.original_packet.data =
      Except.ok ⟨11, "cw20:tok", "remote-rcpt", "local-sender"⟩ ∧
    (exSt5.channel_state ("channel-9", "cw20:tok")).getD ⟨0, 0⟩ = ⟨20, 30⟩ ∧
    (20 : Nat) + 11 < 2 ^ 128 ∧
    (30 : Nat) + 11 < 2 ^ 128 ∧
    (ibc_packet_ack exSt5 exApi exAckMsg5).2.channel_state ("channel-9", "cw20:tok") =
      some ⟨31, 41⟩ := by
  refine ⟨rfl, rfl, rfl, by norm_num, by norm_num, ?_⟩
  exact (c5_ack_success exSt5 exApi exAckMsg5 [49]
    ⟨11, "cw20:tok", "remote-rcpt", "local-sender"⟩ ⟨20, 30⟩ rfl rfl rfl
    (by norm_num) (by norm_num)).2.1

/-- C6 counterexample: a concrete inbound packet whose decoded amount 2^64 exceeds u64::MAX
is accepted by the receive path with a success acknowledgement and a transfer submessage —
do_ibc_packet_receive never invokes Ics20Packet.validate, so the oversized amount is
processed as a valid transfer rather than rejected with AmountOverflow. -/
theorem c6_counterexample :
    U64_MAX < 18446744073709551616 ∧
    Ics20Packet.validate
        ⟨18446744073709551616, "transfer/channel-11/ucosm", "local-rcpt", "remote-sender"⟩ =
      Except.error ContractError.AmountOverflow ∧
    (ibc_packet_receive exSt6 exApi ⟨exPacket6⟩).1 =
      Except.ok
        ⟨ack_success,
          [send_amount (Amount.Native ⟨"ucosm", 18446744073709551616⟩) ("local-rcpt") none],
          [("action", "receive"), ("sender", "remote-sender"), ("receiver", "local-rcpt"),
           ("denom", "ucosm"), ("amount", Nat.repr 18446744073709551616),
           ("success", "true")]⟩ ∧
    (ibc_packet_receive exSt6 exApi ⟨exPacket6⟩).2.channel_state ("channel-3", "ucosm") =
      some ⟨0, 18446744073709551616⟩ := by
  refine ⟨by norm_num [U64_MAX], rfl, rfl, rfl⟩

/-- C8: check_gas_limit returns no gas ceiling for a native amount regardless of the
allow-list; for a cw20 amount whose address validates, a missing allow-list entry fails with
NotOnAllowList and a present entry returns its optional gas ceiling; consequently an inbound
receive of a non-allow-listed cw20 voucher yields the NotOnAllowList failure acknowledgement
even though the ledger balance was sufficient. -/
theorem c8_check_gas_limit (st : Storage) (api_valid : String → Bool) :
    (∀ c : Coin, check_gas_limit st api_valid (Amount.Native c) = Except.ok none) ∧
    (∀ coin : Cw20Coin, api_valid coin.address = true →
      (st.allow_list coin.address = none →
        check_gas_limit st api_valid (Amount.Cw20 coin) =
          Except.error ContractError.NotOnAllowList) ∧
      (∀ info, st.allow_list coin.address = some info →
        check_gas_limit st api_valid (Amount.Cw20 coin) = Except.ok info.gas_limit)) ∧
    (∀ packet m denom cur coin,
      from_binary_packet packet.data = Except.ok m →
      parse_voucher_denom m.denom packet.src = Except.ok denom →
      st.channel_state (packet.dest.channel_id, denom) = some cur →
      m.amount ≤ cur.outstanding →
      Amount.from_parts denom m.amount = Amount.Cw20 coin →
      api_valid coin.address = true →
      st.allow_list coin.address = none →
      (ibc_packet_receive st api_valid ⟨packet⟩).1 =
        Except.ok
          ⟨ack_fail (ContractError.toString ContractError.NotOnAllowList), [],
            [("action", "receive"), ("success", "false"),
             ("error", ContractError.toString ContractError.NotOnAllowList)]⟩) := by
  refine ⟨?_, ?_, ?_⟩
  · intro c
    rfl
  · intro coin hv
    constructor
    · intro hn
      simp [check_gas_limit, hv, hn]
    · intro info hs
      simp [check_gas_limit, hv, hs]
  · intro packet m denom cur coin hm hd hcur hle hparts hv hnone
    have hg : check_gas_limit (receive_updated st packet.dest.channel_id denom cur m.amount)
        api_valid (Amount.from_parts denom m.amount) =
        Except.error ContractError.NotOnAllowList := by
      rw [hparts]
      simp [check_gas_limit, hv, receive_updated, hnone]
    have hdo : do_ibc_packet_receive st api_valid packet =
        (Except.error ContractError.NotOnAllowList,
         receive_updated st packet.dest.channel_id denom cur m.amount) := by
      rw [do_receive_ok_update st api_valid packet m denom cur hm hd hcur hle, hg]
    simp [ibc_packet_receive, hdo]

/-- Witness for C8 at a concrete non-allow-listed cw20 receive with sufficient funds. -/
theorem c8_witness :
    from_binary_packet exPacket2.data =
      Except.ok ⟨5, "transfer/channel-12/cw20:tokenaddr", "local-rcpt", "remote-sender"⟩ ∧
    parse_voucher_denom "transfer/channel-12/cw20:tokenaddr" exPacket2.src =
      Except.ok ("cw20:tokenaddr") ∧
    exSt2.channel_state ("channel-7", "cw20:tokenaddr") = some ⟨100, 100⟩ ∧
    (5 : Nat) ≤ 100 ∧
    Amount.from_parts ("cw20:tokenaddr") 5 = Amount.Cw20 ⟨"tokenaddr", 5⟩ ∧
    exApi "tokenaddr" = true ∧
    exSt2.allow_list "tokenaddr" = none ∧
    (ibc_packet_receive exSt2 exApi ⟨exPacket2⟩).1 =
      Except.ok
        ⟨ack_fail (ContractError.toString ContractError.NotOnAllowList), [],
          [("action", "receive"), ("success", "false"),
           ("error", ContractError.toString ContractError.NotOnAllowList)]⟩ := by
  refine ⟨rfl, by decide, rfl, by decide, by decide, rfl, rfl, ?_⟩
  exact (c8_check_gas_limit exSt2 exApi).2.2 exPacket2
    ⟨5, "transfer/channel-12/cw20:tokenaddr", "local-rcpt", "remote-sender"⟩
    ("cw20:tokenaddr") ⟨100, 100⟩ ⟨"tokenaddr", 5⟩ rfl (by decide) rfl (by decide)
    (by decide) rfl rfl

/-- Helper: enforce_order_and_version rejects exactly a version differing from ics20-1, a
present counterparty version differing from ics20-1, or a non-unordered channel. -/
theorem enforce_error_iff (channel : IbcChannel) (cv : Option String) :
    (∃ e, enforce_order_and_version channel cv = Except.error e) ↔
      (channel.version ≠ ICS20_VERSION ∨
       (∃ v, cv = some v ∧ v ≠ ICS20_VERSION) ∨
       channel.order ≠ IbcOrder.Unordered) := by
  cases cv with
  | none =>
    by_cases hv : channel.version = ICS20_VERSION <;>
      by_cases ho : channel.order = IbcOrder.Unordered <;>
        simp [enforce_order_and_version, hv, ho, ICS20_ORDERING]
  | some v =>
    by_cases hv : channel.version = ICS20_VERSION <;>
      by_cases hcv : v = ICS20_VERSION <;>
        by_cases ho : channel.order = IbcOrder.Unordered <;>
          simp [enforce_order_and_version, hv, hcv, ho, ICS20_ORDERING]

/-- C9: a channel-open or channel-connect handshake is rejected with an error exactly when
the channel version differs from ics20-1, a present counterparty version differs from
ics20-1, or the ordering is not unordered; every rejection of ibc_channel_connect leaves the
storage (in particular the ChannelInfo map) unchanged, and acceptance records exactly the
channel's id, counterparty endpoint and connection id under the channel's id. -/
theorem c9_handshake (st : Storage) (omsg : IbcChannelOpenMsg)
    (msg : IbcChannelConnectMsg) :
    ((∃ e, ibc_channel_open omsg = Except.error e) ↔
      (omsg.channel.version ≠ ICS20_VERSION ∨
       (∃ v, omsg.counterparty_version = some v ∧ v ≠ ICS20_VERSION) ∨
       omsg.channel.order ≠ IbcOrder.Unordered)) ∧
    ((∃ e, (ibc_channel_connect st msg).1 = Except.error e) ↔
      (msg.channel.version ≠ ICS20_VERSION ∨
       (∃ v, msg.counterparty_version = some v ∧ v ≠ ICS20_VERSION) ∨
       msg.channel.order ≠ IbcOrder.Unordered)) ∧
    (∀ e, (ibc_channel_connect st msg).1 = Except.error e →
      (ibc_channel_connect st msg).2 = st) ∧
    (∀ r, (ibc_channel_connect st msg).1 = Except.ok r →
      (ibc_channel_connect st msg).2 =
        { st with channel_info := fun k =>
            if k = msg.channel.endpoint.channel_id then
              some ⟨msg.channel.endpoint.channel_id, msg.channel.counterparty_endpoint,
                msg.channel.connection_id⟩
            else st.channel_info k }) := by
  refine ⟨?_, ?_, ?_, ?_⟩
  · exact enforce_error_iff omsg.channel omsg.counterparty_version
  · have hiff : (∃ e, (ibc_channel_connect st msg).1 = Except.error e) ↔
        (∃ e, enforce_order_and_version msg.channel msg.counterparty_version =
          Except.error e) := by
      cases h : enforce_order_and_version msg.channel msg.counterparty_version with
      | error e => simp [ibc_channel_connect, h]
      | ok u => simp [ibc_channel_connect, h]
    exact hiff.trans (enforce_error_iff msg.channel msg.counterparty_version)
  · intro e he
    cases h : enforce_order_and_version msg.channel msg.counterparty_version with
    | error e2 => simp [ibc_channel_connect, h]
    | ok u =>
      exfalso
      simp [ibc_channel_connect, h] at he
  · intro r hr
    cases h : enforce_order_and_version msg.channel msg.counterparty_version with
    | error e2 =>
      exfalso
      simp [ibc_channel_connect, h] at hr
    | ok u => simp [ibc_channel_connect, h]

/-- Witness for C9: a concrete well-formed connect records the ChannelInfo. -/
theorem c9_witness :
    (ibc_channel_connect exStEmpty exConnMsg).1 = Except.ok ⟨[], []⟩ ∧
    ((ibc_channel_connect exStEmpty exConnMsg).2 =
      { exStEmpty with channel_info := fun k =>
                         if k = exConnMsg.channel.endpoint.channel_id then
                           some ⟨exConnMsg.channel.endpoint.channel_id,
                                  exConnMsg.channel.counterparty_endpoint,
                                  exConnMsg.channel.connection_id⟩
                         else exStEmpty.channel_info k }) := by
  have h : (ibc_channel_connect exStEmpty exConnMsg).1 = Except.ok ⟨[], []⟩ := rfl
  exact ⟨h, (c9_handshake exStEmpty (IbcChannelOpenMsg.OpenInit exChannel) exConnMsg).2.2.2
    ⟨[], []⟩ h⟩

end Cw20Ics20
